import Mathlib

/-!
Verification development for the CCTwinCities MCP server (`src/index.ts`).

The server exposes three tools over a static in-memory data store:
`get_volunteer_opportunities` (a chain of optional filters over an
opportunity list plus a text/structured responder),
`get_donation_options` (a keyed lookup over three donation variants),
and `search_org_info` (keyword-triggered info blocks).

This file shallowly embeds the data model and the tool handlers and proves
properties of the filter pipeline, the responders and the error boundaries.
-/

namespace CCTC

/-! ### JavaScript string primitives

`String.prototype.includes` is substring containment; `toLowerCase` is
modelled per character with `Char.toLower` (both lower-case ASCII
letters).
-/

/-- Whether `hay` starts with `needle` (`charsStartWith needle hay`). -/
def charsStartWith : List Char → List Char → Bool
  | [], _ => true
  | _ :: _, [] => false
  | a :: as, b :: bs => a == b && charsStartWith as bs

/-- Whether `needle` occurs contiguously in `hay`. -/
def charsContain (needle : List Char) : List Char → Bool
  | [] => needle.isEmpty
  | b :: bs => charsStartWith needle (b :: bs) || charsContain needle bs

/-- JavaScript `hay.includes(needle)`: substring containment. -/
def jsIncludes (hay needle : String) : Bool :=
  charsContain needle.toList hay.toList

/-- JavaScript `toLowerCase`, computed per character (ASCII letters are
lower-cased; agrees with `String.toLower`, but reduces in the kernel). -/
def jsToLower (s : String) : String :=
  String.mk (s.toList.map Char.toLower)

/-! ### Data model (from `CC.json` record shapes used by `src/index.ts`) -/

/-- Model of `opp.location` as accessed by the handlers
(`location.city`). -/
structure Location where
  city : String
  facility : String
  address : Option String
  deriving DecidableEq, Repr

/-- Model of `opp.schedule` (`schedule.type`, `schedule.details`). -/
structure Schedule where
  type : String
  details : String
  deriving DecidableEq, Repr

/-- Model of `opp.requirements` as accessed by the handlers. -/
structure Requirements where
  age_minimum : Int
  group_friendly : Bool
  skills : List String
  max_group_size : Option Nat
  deriving DecidableEq, Repr

/-- Model of `opp.contact`. -/
structure OppContact where
  phone : String
  email : String
  deriving DecidableEq, Repr

/-- One volunteer opportunity record, with the fields read by
`get_volunteer_opportunities`. -/
structure Opportunity where
  id : String
  title : String
  description : String
  location : Location
  schedule : Schedule
  requirements : Requirements
  contact : OppContact
  signup_url : Option String
  source_url : String
  deriving DecidableEq, Repr

/-- The `schedule_type` enum of `GetVolunteerOpportunitiesSchema`
(`z.enum(["one-time", "weekly", "flexible", "ongoing"])`). -/
inductive ScheduleType where
  | one_time
  | weekly
  | flexible
  | ongoing
  deriving DecidableEq, Repr

/-- The wire string of each `schedule_type` enum value. -/
def ScheduleType.toWire : ScheduleType → String
  | .one_time => "one-time"
  | .weekly => "weekly"
  | .flexible => "flexible"
  | .ongoing => "ongoing"

/-- The parameter set of `get_volunteer_opportunities`
(`GetVolunteerOpportunitiesSchema`); every criterion is optional. -/
structure Params where
  keyword : Option String := none
  city : Option String := none
  schedule_type : Option ScheduleType := none
  age_minimum : Option Int := none
  group_friendly : Option Bool := none
  skill : Option String := none
  deriving DecidableEq, Repr

/-- The parameter set with no criterion supplied. -/
def Params.noCriteria : Params := {}

/-- Restriction of a parameter set to its keyword criterion alone. -/
def Params.onlyKeyword (ps : Params) : Params := { keyword := ps.keyword }

/-- Restriction of a parameter set to its city criterion alone. -/
def Params.onlyCity (ps : Params) : Params := { city := ps.city }

/-- Restriction of a parameter set to its schedule-type criterion alone. -/
def Params.onlySchedule (ps : Params) : Params :=
  { schedule_type := ps.schedule_type }

/-- Restriction of a parameter set to its age criterion alone. -/
def Params.onlyAge (ps : Params) : Params := { age_minimum := ps.age_minimum }

/-- Restriction of a parameter set to its group-friendly criterion alone. -/
def Params.onlyGroup (ps : Params) : Params :=
  { group_friendly := ps.group_friendly }

/-- Restriction of a parameter set to its skill criterion alone. -/
def Params.onlySkill (ps : Params) : Params := { skill := ps.skill }

/-! ### Filter pipeline (`get_volunteer_opportunities`, lines 110-152)

Each stage mirrors one `if (params.x) { opportunities =
opportunities.filter(...) }` block.  String parameters are guarded by
JavaScript truthiness, so the empty string skips the stage; `age_minimum`
and `group_friendly` are guarded by `!== undefined`.
-/

/-- The keyword predicate on one opportunity:
`opp.title.toLowerCase().includes(kw) ||
 opp.description.toLowerCase().includes(kw)` with `kw` the lower-cased
keyword parameter. -/
def oppMatchesKeyword (kw : String) (o : Opportunity) : Bool :=
  jsIncludes (jsToLower o.title) (jsToLower kw) ||
    jsIncludes (jsToLower o.description) (jsToLower kw)

/-- The city predicate:
`opp.location.city.toLowerCase().includes(city)` with `city` lower-cased. -/
def oppMatchesCity (c : String) (o : Opportunity) : Bool :=
  jsIncludes (jsToLower o.location.city) (jsToLower c)

/-- The schedule predicate: `opp.schedule.type === params.schedule_type`. -/
def oppMatchesSchedule (st : ScheduleType) (o : Opportunity) : Bool :=
  o.schedule.type == st.toWire

/-- The age predicate:
`opp.requirements.age_minimum <= params.age_minimum`. -/
def oppMatchesAge (a : Int) (o : Opportunity) : Bool :=
  o.requirements.age_minimum ≤ a

/-- The group-friendly predicate:
`opp.requirements.group_friendly === params.group_friendly`. -/
def oppMatchesGroup (g : Bool) (o : Opportunity) : Bool :=
  o.requirements.group_friendly == g

/-- The skill predicate:
`opp.requirements.skills.some((s) => s.toLowerCase().includes(skill))`. -/
def oppMatchesSkill (sk : String) (o : Opportunity) : Bool :=
  o.requirements.skills.any (fun s => jsIncludes (jsToLower s) (jsToLower sk))

/-- Stage 1: `if (params.keyword) { ... }` (truthiness guard). -/
def filterKeyword (p : Option String) (l : List Opportunity) :
    List Opportunity :=
  match p with
  | none => l
  | some kw => if kw = "" then l else l.filter (oppMatchesKeyword kw)

/-- Stage 2: `if (params.city) { ... }` (truthiness guard). -/
def filterCity (p : Option String) (l : List Opportunity) :
    List Opportunity :=
  match p with
  | none => l
  | some c => if c = "" then l else l.filter (oppMatchesCity c)

/-- Stage 3: `if (params.schedule_type) { ... }` (enum values are non-empty
strings, hence always truthy when present). -/
def filterSchedule (p : Option ScheduleType) (l : List Opportunity) :
    List Opportunity :=
  match p with
  | none => l
  | some st => l.filter (oppMatchesSchedule st)

/-- Stage 4: `if (params.age_minimum !== undefined) { ... }`. -/
def filterAge (p : Option Int) (l : List Opportunity) : List Opportunity :=
  match p with
  | none => l
  | some a => l.filter (oppMatchesAge a)

/-- Stage 5: `if (params.group_friendly !== undefined) { ... }`. -/
def filterGroup (p : Option Bool) (l : List Opportunity) :
    List Opportunity :=
  match p with
  | none => l
  | some g => l.filter (oppMatchesGroup g)

/-- Stage 6: `if (params.skill) { ... }` (truthiness guard). -/
def filterSkill (p : Option String) (l : List Opportunity) :
    List Opportunity :=
  match p with
  | none => l
  | some sk => if sk = "" then l else l.filter (oppMatchesSkill sk)

/-- The full filter pipeline of `get_volunteer_opportunities`, applying the
six stages in source order: keyword, city, schedule, age, group, skill. -/
def filterOpportunities (ps : Params) (l : List Opportunity) :
    List Opportunity :=
  filterSkill ps.skill
    (filterGroup ps.group_friendly
      (filterAge ps.age_minimum
        (filterSchedule ps.schedule_type
          (filterCity ps.city
            (filterKeyword ps.keyword l)))))

/-! ### One-pass characterization of the pipeline -/

/-- The keyword criterion as a single predicate (`true` when the criterion
is absent or empty, mirroring the truthiness guard). -/
def critKeyword (p : Option String) (o : Opportunity) : Bool :=
  match p with
  | none => true
  | some kw => if kw = "" then true else oppMatchesKeyword kw o

/-- The city criterion as a single predicate. -/
def critCity (p : Option String) (o : Opportunity) : Bool :=
  match p with
  | none => true
  | some c => if c = "" then true else oppMatchesCity c o

/-- The schedule criterion as a single predicate. -/
def critSchedule (p : Option ScheduleType) (o : Opportunity) : Bool :=
  match p with
  | none => true
  | some st => oppMatchesSchedule st o

/-- The age criterion as a single predicate. -/
def critAge (p : Option Int) (o : Opportunity) : Bool :=
  match p with
  | none => true
  | some a => oppMatchesAge a o

/-- The group-friendly criterion as a single predicate. -/
def critGroup (p : Option Bool) (o : Opportunity) : Bool :=
  match p with
  | none => true
  | some g => oppMatchesGroup g o

/-- The skill criterion as a single predicate. -/
def critSkill (p : Option String) (o : Opportunity) : Bool :=
  match p with
  | none => true
  | some sk => if sk = "" then true else oppMatchesSkill sk o

/-- Conjunction of all six criteria of a parameter set. -/
def matchesParams (ps : Params) (o : Opportunity) : Bool :=
  critKeyword ps.keyword o && critCity ps.city o &&
    critSchedule ps.schedule_type o && critAge ps.age_minimum o &&
    critGroup ps.group_friendly o && critSkill ps.skill o

/-! ### Responder, opportunity path (lines 154-217)

`structuredContent` re-lists each matching record's fields plus the
general volunteer contact; `textSummary` is either the fixed zero-match
apology or a numbered list of paragraphs.
-/

/-- Model of `ccData.volunteer.general_info.main_contact`. -/
structure MainContact where
  phone : String
  email : String
  deriving DecidableEq, Repr

/-- The `volunteer` section of the data store used by the handler. -/
structure VolunteerStore where
  opportunities : List Opportunity
  main_contact : MainContact
  deriving DecidableEq, Repr

/-- Model of the `structuredContent` of `get_volunteer_opportunities`. -/
structure StructuredContent where
  opportunities : List Opportunity
  contact : MainContact
  deriving DecidableEq, Repr

/-- The per-opportunity record of `structuredContent.opportunities`
(the handler copies each field explicitly). -/
def toStructuredOpp (o : Opportunity) : Opportunity :=
  { id := o.id, title := o.title, description := o.description,
    location := o.location, schedule := o.schedule,
    requirements := o.requirements, contact := o.contact,
    signup_url := o.signup_url, source_url := o.source_url }

/-- Rendering of `opp.requirements.max_group_size || "N/A"`
(JavaScript truthiness:
`0` and absence both fall back to `"N/A"`). -/
def maxGroupStr : Option Nat → String
  | none => "N/A"
  | some n => if n = 0 then "N/A" else toString n

/-- One numbered paragraph of the non-empty text summary (`idx` is the
zero-based position from `map`). -/
def renderOppParagraph (idx : Nat) (o : Opportunity) : String :=
  toString (idx + 1) ++ ". **" ++ o.title ++ "** - " ++ o.location.city ++
    "\n" ++
    "   " ++ o.description ++ "\n" ++
    "   Schedule: " ++ o.schedule.details ++ "\n" ++
    "   Age: " ++ toString o.requirements.age_minimum ++ "+" ++
    (if o.requirements.group_friendly then
      " | Group-friendly (max " ++ maxGroupStr o.requirements.max_group_size
        ++ ")"
    else "") ++
    (if o.requirements.skills.length > 0 then
      " | Skills: " ++ String.intercalate ", " o.requirements.skills
    else "") ++
    "\n" ++
    "   Contact: " ++ o.contact.email ++ " | " ++ o.contact.phone ++ "\n" ++
    (match o.signup_url with
     | some u => if u = "" then "" else "   Sign up: " ++ u ++ "\n"
     | none => "")

/-- The text summary of `get_volunteer_opportunities`: the fixed apology
on zero matches, otherwise the numbered list plus the general contact. -/
def textSummary (mc : MainContact) (opps : List Opportunity) : String :=
  if opps.length = 0 then
    "No volunteer opportunities match your criteria. Try adjusting your filters or contact volunteer@cctwincities.org at (612) 204-8435 for more options."
  else
    "Found " ++ toString opps.length ++ " volunteer opportunit" ++
      (if opps.length = 1 then "y" else "ies") ++ ":\n\n" ++
      String.intercalate "\n"
        (opps.enum.map (fun p => renderOppParagraph p.1 p.2)) ++
      "\n**General volunteer contact:** " ++ mc.email ++ " | " ++ mc.phone

/-- The success response of `get_volunteer_opportunities`: text content
plus `structuredContent` (`structured = none` models the catch branch,
which returns text only). -/
structure VolResponse where
  text : String
  structured : Option StructuredContent
  deriving DecidableEq, Repr

/-- The `get_volunteer_opportunities` handler body: filter, then build
`structuredContent` and the text summary. -/
def volunteerResponse (store : VolunteerStore) (ps : Params) : VolResponse :=
  let opps := filterOpportunities ps store.opportunities
  { text := textSummary store.main_contact opps,
    structured := some
      { opportunities := opps.map toStructuredOpp,
        contact := store.main_contact } }

/-! ### Donation path (`get_donation_options`, lines 226-286)

`GetDonationOptionsSchema` restricts `type` to
`z.enum(["online", "in_kind", "vehicle"])`; the handler looks up
`ccData.donations[type]` and renders with an `if`/`else if` chain whose
fall-through leaves `textContent` as the empty string.
-/

/-- The `type` enum of `GetDonationOptionsSchema`; an unrecognized wire
value is rejected by the schema and never constructs a value of this
type. -/
inductive DonationType where
  | online
  | in_kind
  | vehicle
  deriving DecidableEq, Repr

/-- Model of `ccData.donations.online`. -/
structure OnlineDonation where
  donation_page_url : String
  types : List String
  notes : String
  contact : OppContact
  deriving DecidableEq, Repr

/-- One category of `ccData.donations.in_kind.accepted_items`. -/
structure AcceptedCategory where
  category : String
  details : String
  restrictions : Option String
  deriving DecidableEq, Repr

/-- One entry of `ccData.donations.in_kind.drop_off_locations`. -/
structure DropOffLocation where
  name : String
  address : String
  hours : String
  phone : String
  email : String
  deriving DecidableEq, Repr

/-- Model of `ccData.donations.in_kind`. -/
structure InKindDonation where
  accepted_items : List AcceptedCategory
  not_accepted : List String
  drop_off_locations : List DropOffLocation
  policies : List String
  wishlist_url : String
  deriving DecidableEq, Repr

/-- Model of `ccData.donations.vehicle`. -/
structure VehicleDonation where
  process_description : String
  phone : String
  program_url : String
  deriving DecidableEq, Repr

/-- Model of `ccData.donations`. -/
structure Donations where
  online : OnlineDonation
  in_kind : InKindDonation
  vehicle : VehicleDonation
  deriving DecidableEq, Repr

/-- The `online` rendering branch. -/
def renderOnline (d : OnlineDonation) : String :=
  "**Online Donations to Catholic Charities Twin Cities**\n\n" ++
    "Donate securely online at: " ++ d.donation_page_url ++ "\n\n" ++
    "**Donation Types:**\n" ++
    String.intercalate "\n" (d.types.map (fun t => "• " ++ t)) ++ "\n\n" ++
    d.notes ++ "\n\n" ++
    "**Questions about giving?**\n" ++
    "Phone: " ++ d.contact.phone ++ "\n" ++
    "Email: " ++ d.contact.email

/-- The `in_kind` rendering branch (`cat.restrictions` and the trailing
newlines follow the `forEach` accumulation). -/
def renderInKind (d : InKindDonation) : String :=
  "**In-Kind Donations to Catholic Charities Twin Cities**\n\n" ++
    "**Currently Accepting (NEW items only):**\n\n" ++
    String.join (d.accepted_items.map (fun cat =>
      "**" ++ cat.category ++ ":**\n" ++ cat.details ++ "\n" ++
        (match cat.restrictions with
         | some r => if r = "" then "" else "*" ++ r ++ "*\n"
         | none => "") ++ "\n")) ++
    "**NOT Accepted:**\n" ++
    String.intercalate "\n" (d.not_accepted.map (fun item => "• " ++ item))
      ++ "\n\n" ++
    "**Drop-Off Location:**\n" ++
    String.join (d.drop_off_locations.map (fun loc =>
      loc.name ++ "\n" ++ loc.address ++ "\n" ++
        "Hours: " ++ loc.hours ++ "\n" ++
        "Phone: " ++ loc.phone ++ "\n" ++
        "Email: " ++ loc.email ++ "\n\n")) ++
    "**Important Policies:**\n" ++
    String.intercalate "\n" (d.policies.map (fun p => "• " ++ p)) ++
      "\n\n" ++
    "View full wishlist: " ++ d.wishlist_url

/-- The `vehicle` rendering branch. -/
def renderVehicle (d : VehicleDonation) : String :=
  "**Vehicle Donation to Catholic Charities Twin Cities**\n\n" ++
    d.process_description ++ "\n\n" ++
    "**To donate your vehicle:**\n" ++
    "Phone: " ++ d.phone ++ "\n" ++
    "Online: " ++ d.program_url ++ "\n\n" ++
    "Vehicles accepted: cars, trucks, trailers, boats, RVs, motorcycles, and other motorized vehicles."

/-- The `get_donation_options` handler body: keyed lookup followed by the
`if`/`else if` chain on the type; the final `else`-less fall-through
leaves the initial empty `textContent`. -/
def donationText (store : Donations) (t : DonationType) : String :=
  if t = DonationType.online then renderOnline store.online
  else if t = DonationType.in_kind then renderInKind store.in_kind
  else if t = DonationType.vehicle then renderVehicle store.vehicle
  else ""

/-- The per-variant rendering of the donation lookup, as a total match
with exactly one branch per valid type value. -/
def donationBranch (store : Donations) : DonationType → String
  | .online => renderOnline store.online
  | .in_kind => renderInKind store.in_kind
  | .vehicle => renderVehicle store.vehicle

/-! ### Organization search (`search_org_info`, lines 294-456) -/

/-- One entry of `ccData.organization.services`. -/
structure Service where
  name : String
  description : String
  keywords : List String
  deriving DecidableEq, Repr

/-- One entry of `ccData.organization.locations` (`loc.phone` is guarded
by truthiness). -/
structure OrgLocation where
  name : String
  address : String
  phone : Option String
  deriving DecidableEq, Repr

/-- One entry of `ccData.organization.upcoming_events`. -/
structure OrgEvent where
  name : String
  date : String
  description : String
  url : String
  deriving DecidableEq, Repr

/-- Model of `ccData.organization.about.stats`. -/
structure OrgStats where
  people_served_annually : Nat
  meals_served_annually : Nat
  nights_of_housing_provided_annually : Nat
  volunteers_annually : Nat
  volunteer_hours_annually : Nat
  years_operating : Nat
  deriving DecidableEq, Repr

/-- Model of `ccData.organization.about`. -/
structure OrgAbout where
  history : String
  founded : Nat
  stats : OrgStats
  deriving DecidableEq, Repr

/-- Model of `ccData.organization.contact`. -/
structure OrgContact where
  main_phone : String
  main_email : String
  hours : String
  deriving DecidableEq, Repr

/-- Model of `ccData.organization`. -/
structure Organization where
  mission : String
  about : OrgAbout
  services : List Service
  locations : List OrgLocation
  upcoming_events : List OrgEvent
  contact : OrgContact
  service_area : String
  source_url : String
  deriving DecidableEq, Repr

/-- One pushed result block (heading, summary, source URL). -/
structure InfoBlock where
  heading : String
  summary : String
  source_url : String
  deriving DecidableEq, Repr

/-- Digit grouping helper over a reversed digit list: `k` counts digits
emitted since the last separator. -/
def groupRev : List Char → Nat → List Char
  | [], _ => []
  | c :: cs, k =>
    if k = 3 then ',' :: c :: groupRev cs 1 else c :: groupRev cs (k + 1)

/-- JavaScript `Number.prototype.toLocaleString` on a natural number:
decimal digits with `,` thousands separators. -/
def natLocaleString (n : Nat) : String :=
  String.mk ((groupRev (toString n).toList.reverse 0).reverse)

/-- The mission/about trigger (line 300). -/
def missionTrigger (q : String) : Bool :=
  jsIncludes q "mission" || jsIncludes q "about" ||
    jsIncludes q "what do" || jsIncludes q "purpose"

/-- The `serviceKeywords` list (line 319). -/
def serviceKeywords : List String :=
  ["service", "program", "help", "support", "shelter", "housing", "food",
    "meal", "homeless", "family", "senior", "disability", "child"]

/-- The service trigger (line 334). -/
def serviceTrigger (q : String) : Bool :=
  serviceKeywords.any (fun kw => jsIncludes q kw)

/-- The contact/location trigger (line 365). -/
def contactTrigger (q : String) : Bool :=
  jsIncludes q "contact" || jsIncludes q "phone" || jsIncludes q "email" ||
    jsIncludes q "location" || jsIncludes q "address" ||
    jsIncludes q "where"

/-- The events trigger (line 398). -/
def eventTrigger (q : String) : Bool :=
  jsIncludes q "event" || jsIncludes q "calendar"

/-- The statistics trigger (line 412). -/
def statsTrigger (q : String) : Bool :=
  jsIncludes q "stat" || jsIncludes q "impact" ||
    jsIncludes q "how many" || jsIncludes q "number"

/-- The mission block (lines 306-310). -/
def missionBlock (org : Organization) : InfoBlock :=
  { heading := "Mission", summary := org.mission,
    source_url := org.source_url }

/-- The history block (lines 311-315). -/
def historyBlock (org : Organization) : InfoBlock :=
  { heading := "History",
    summary := org.about.history ++ " Founded in " ++
      toString org.about.founded ++
      ", Catholic Charities has served the Twin Cities for " ++
      toString org.about.stats.years_operating ++ " years.",
    source_url := org.source_url }

/-- A service's searchable text
(`` `${svc.name} ${svc.description} ${svc.keywords.join(" ")}` ``
lower-cased). -/
def serviceMatchText (svc : Service) : String :=
  jsToLower (svc.name ++ " " ++ svc.description ++ " " ++
    String.intercalate " " svc.keywords)

/-- Whether any whitespace-delimited token of the query occurs in the
service's searchable text (lines 336-340). -/
def serviceMatches (q : String) (svc : Service) : Bool :=
  (q.splitOn " ").any (fun w => jsIncludes (serviceMatchText svc) w)

/-- The blocks appended by the service branch: one block per matching
service, or the single overview block when none matches (lines 342-361). -/
def serviceBlocks (org : Organization) (q : String) : List InfoBlock :=
  let matching := org.services.filter (serviceMatches q)
  if matching.length > 0 then
    matching.map (fun svc =>
      { heading := svc.name, summary := svc.description,
        source_url := org.source_url })
  else
    [{ heading := "Services Overview",
       summary :=
         "Catholic Charities Twin Cities offers these core services:\n\n" ++
           String.intercalate "\n\n" (org.services.map (fun svc =>
             "• **" ++ svc.name ++ "**: " ++ svc.description)),
       source_url := org.source_url }]

/-- The contact block (lines 373-383). -/
def contactBlock (org : Organization) : InfoBlock :=
  { heading := "Contact Information",
    summary := "**Main Office:**\n" ++
      "Phone: " ++ org.contact.main_phone ++ "\n" ++
      "Email: " ++ org.contact.main_email ++ "\n" ++
      "Hours: " ++ org.contact.hours ++ "\n\n" ++
      "**Volunteer inquiries:** volunteer@cctwincities.org | (612) 204-8435\n" ++
      "**Donation inquiries:** giving.info@cctwincities.org | (612) 204-8374",
    source_url := org.source_url }

/-- The locations block (lines 385-394). -/
def locationsBlock (org : Organization) : InfoBlock :=
  { heading := "Locations",
    summary := String.intercalate "\n\n" (org.locations.map (fun loc =>
      "**" ++ loc.name ++ "**\n" ++ loc.address ++
        (match loc.phone with
         | some p => if p = "" then "" else "\nPhone: " ++ p
         | none => ""))),
    source_url := org.source_url }

/-- The events block (lines 399-408). -/
def eventsBlock (org : Organization) : InfoBlock :=
  { heading := "Upcoming Events",
    summary := String.intercalate "\n\n" (org.upcoming_events.map
      (fun evt =>
        "**" ++ evt.name ++ "** - " ++ evt.date ++ "\n" ++
          evt.description ++ "\n" ++ evt.url)),
    source_url := org.source_url }

/-- The impact/statistics block (lines 418-430). -/
def statsBlock (org : Organization) : InfoBlock :=
  { heading := "Impact & Statistics",
    summary :=
      "Catholic Charities Twin Cities serves the community with significant impact:\n\n" ++
      "• **" ++ natLocaleString org.about.stats.people_served_annually ++
        "** people served annually\n" ++
      "• **" ++ natLocaleString org.about.stats.meals_served_annually ++
        "** meals served annually\n" ++
      "• **" ++
        natLocaleString org.about.stats.nights_of_housing_provided_annually
        ++ "** nights of housing provided annually\n" ++
      "• **" ++ natLocaleString org.about.stats.volunteers_annually ++
        "** volunteers annually\n" ++
      "• **" ++ natLocaleString org.about.stats.volunteer_hours_annually ++
        "+** volunteer hours annually\n" ++
      "• **" ++ toString org.about.stats.years_operating ++
        "** years serving the Twin Cities",
    source_url := org.source_url }

/-- The fallback block pushed when no category triggered (lines 434-440). -/
def defaultBlock (org : Organization) : InfoBlock :=
  { heading := "About Catholic Charities Twin Cities",
    summary := org.mission ++ "\n\nServing the " ++ org.service_area ++
      " since " ++ toString org.about.founded ++ ".\n\nContact: " ++
      org.contact.main_phone ++ " | " ++ org.contact.main_email,
    source_url := org.source_url }

/-- The `search_org_info` handler body: lower-case the query, append one
segment of blocks per triggered category in source order, and fall back
to the default block when nothing triggered. -/
def searchOrgInfo (org : Organization) (queryRaw : String) :
    List InfoBlock :=
  let query := jsToLower queryRaw
  let results :=
    (if missionTrigger query then [missionBlock org, historyBlock org]
     else []) ++
    (if serviceTrigger query then serviceBlocks org query else []) ++
    (if contactTrigger query then [contactBlock org, locationsBlock org]
     else []) ++
    (if eventTrigger query then [eventsBlock org] else []) ++
    (if statsTrigger query then [statsBlock org] else [])
  if results.isEmpty then [defaultBlock org] else results

/-- The final text of `search_org_info` (lines 442-447). -/
def renderBlocks (blocks : List InfoBlock) : String :=
  String.intercalate "\n\n---\n\n" (blocks.map (fun b =>
    "**" ++ b.heading ++ "**\n\n" ++ b.summary ++ "\n\nSource: " ++
      b.source_url))

/-! ### Error boundaries (the `catch` blocks of the three handlers)

Each handler wraps its whole body in `try { ... } catch (error) {
return fixed apology }`.  The body's outcome is abstracted as an
`Except` value whose error carries the raised fault's description; the
boundary maps any error to the handler's fixed apology response.
-/

/-- The fixed catch-branch text of `get_volunteer_opportunities`
(lines 211-216). -/
def volunteerFallback : String :=
  "Sorry, an error occurred while searching for volunteer opportunities. Please try again or contact volunteer@cctwincities.org at (612) 204-8435."

/-- The fixed catch-branch text of `get_donation_options`
(lines 279-284). -/
def donationFallback : String :=
  "Sorry, an error occurred while getting donation information. Please contact giving.info@cctwincities.org at (612) 204-8374."

/-- The fixed catch-branch text of `search_org_info` (lines 459-464). -/
def orgFallback : String :=
  "Sorry, an error occurred while searching organization information. Please contact info@cctwincities.org at (612) 204-8500."

/-- The `try`/`catch` boundary of `get_volunteer_opportunities`: the
catch branch returns text-only content (no `structuredContent`). -/
def volunteerBoundary (body : Except String VolResponse) : VolResponse :=
  match body with
  | .ok r => r
  | .error _ => { text := volunteerFallback, structured := none }

/-- The `try`/`catch` boundary of `get_donation_options`. -/
def donationBoundary (body : Except String String) : String :=
  match body with
  | .ok r => r
  | .error _ => donationFallback

/-- The `try`/`catch` boundary of `search_org_info`. -/
def orgBoundary (body : Except String String) : String :=
  match body with
  | .ok r => r
  | .error _ => orgFallback

/-! ### Specification-side definitions and concrete sample data -/

/-- Modelled from the spec: the data file `CC.json` (the source of
`ccData.volunteer.general_info.main_contact`) is not part of the
repository snapshot; the spec's contact lines fix the general volunteer
contact as `volunteer@cctwincities.org` and `(612) 204-8435`. -/
def specVolunteerContact : MainContact :=
  { phone := "(612) 204-8435", email := "volunteer@cctwincities.org" }

/-- The keyword criterion as the specification words it: the lower-cased
keyword is a substring of the lower-cased concatenation of title and
description (to be compared with `oppMatchesKeyword`, which tests title
and description separately). -/
def specKeywordConcatMatch (kw : String) (o : Opportunity) : Bool :=
  jsIncludes (jsToLower (o.title ++ o.description)) (jsToLower kw)

/-- A sample opportunity requiring age 14, group friendly, in
Minneapolis. -/
def opp14 : Opportunity :=
  { id := "meal-service",
    title := "Meal Service Volunteer",
    description := "Serve meals to guests",
    location := { city := "Minneapolis", facility := "Higher Ground",
                  address := none },
    schedule := { type := "weekly", details := "Weekly shifts" },
    requirements := { age_minimum := 14, group_friendly := true,
                      skills := [], max_group_size := some 10 },
    contact := { phone := "(612) 204-8435",
                 email := "volunteer@cctwincities.org" },
    signup_url := none,
    source_url := "https://www.cctwincities.org" }

/-- A sample opportunity requiring age 18, not group friendly, in Saint
Paul. -/
def opp18 : Opportunity :=
  { id := "warehouse",
    title := "Warehouse Volunteer",
    description := "Sort donated items",
    location := { city := "Saint Paul", facility := "Distribution Center",
                  address := none },
    schedule := { type := "flexible", details := "Flexible shifts" },
    requirements := { age_minimum := 18, group_friendly := false,
                      skills := ["sorting"], max_group_size := none },
    contact := { phone := "(612) 204-8435",
                 email := "volunteer@cctwincities.org" },
    signup_url := none,
    source_url := "https://www.cctwincities.org" }

/-- A sample opportunity whose title ends and description begins so that
the keyword `"bc"` spans the title/description boundary. -/
def oppSpan : Opportunity :=
  { id := "span",
    title := "ab",
    description := "cd",
    location := { city := "Minneapolis", facility := "", address := none },
    schedule := { type := "weekly", details := "" },
    requirements := { age_minimum := 14, group_friendly := false,
                      skills := [], max_group_size := none },
    contact := { phone := "p", email := "e" },
    signup_url := none,
    source_url := "s" }

/-- The criteria set of the spec's zero-result example:
`city = "Nonexistent City"`. -/
def psNonexistent : Params := { city := some "Nonexistent City" }

/-! ### Helper lemmas: one-pass characterization of the pipeline -/

lemma filterKeyword_eq (p : Option String) (l : List Opportunity) :
    filterKeyword p l = l.filter (critKeyword p) := by
  cases p with
  | none => exact (List.filter_true l).symm
  | some kw =>
    by_cases h : kw = ""
    · subst h
      have hc : critKeyword (some "") = fun _ => true := by
        funext o; simp [critKeyword]
      simp [filterKeyword, hc, List.filter_true]
    · have hc : critKeyword (some kw) = oppMatchesKeyword kw := by
        funext o; simp [critKeyword, h]
      simp [filterKeyword, h, hc]

lemma filterCity_eq (p : Option String) (l : List Opportunity) :
    filterCity p l = l.filter (critCity p) := by
  cases p with
  | none => exact (List.filter_true l).symm
  | some c =>
    by_cases h : c = ""
    · subst h
      have hc : critCity (some "") = fun _ => true := by
        funext o; simp [critCity]
      simp [filterCity, hc, List.filter_true]
    · have hc : critCity (some c) = oppMatchesCity c := by
        funext o; simp [critCity, h]
      simp [filterCity, h, hc]

lemma filterSchedule_eq (p : Option ScheduleType) (l : List Opportunity) :
    filterSchedule p l = l.filter (critSchedule p) := by
  cases p with
  | none => exact (List.filter_true l).symm
  | some st => rfl

lemma filterAge_eq (p : Option Int) (l : List Opportunity) :
    filterAge p l = l.filter (critAge p) := by
  cases p with
  | none => exact (List.filter_true l).symm
  | some a => rfl

lemma filterGroup_eq (p : Option Bool) (l : List Opportunity) :
    filterGroup p l = l.filter (critGroup p) := by
  cases p with
  | none => exact (List.filter_true l).symm
  | some g => rfl

lemma filterSkill_eq (p : Option String) (l : List Opportunity) :
    filterSkill p l = l.filter (critSkill p) := by
  cases p with
  | none => exact (List.filter_true l).symm
  | some sk =>
    by_cases h : sk = ""
    · subst h
      have hc : critSkill (some "") = fun _ => true := by
        funext o; simp [critSkill]
      simp [filterSkill, hc, List.filter_true]
    · have hc : critSkill (some sk) = oppMatchesSkill sk := by
        funext o; simp [critSkill, h]
      simp [filterSkill, h, hc]

/-- The six-stage pipeline is one `List.filter` by the conjunction of the
six criteria. -/
lemma filterOpportunities_eq_filter (ps : Params) (l : List Opportunity) :
    filterOpportunities ps l = l.filter (matchesParams ps) := by
  unfold filterOpportunities
  rw [filterKeyword_eq, filterCity_eq, filterSchedule_eq, filterAge_eq,
    filterGroup_eq, filterSkill_eq, List.filter_filter, List.filter_filter,
    List.filter_filter, List.filter_filter, List.filter_filter]
  congr 1
  funext o
  simp only [matchesParams]
  rw [Bool.eq_iff_iff]
  simp only [Bool.and_eq_true]
  tauto

lemma jsIncludes_empty_needle (s : String) : jsIncludes s "" = true := by
  unfold jsIncludes
  cases h : s.toList with
  | nil => rfl
  | cons b bs => simp [charsContain, charsStartWith]

/-! ### Claim theorems -/

/-- C1: for every opportunity list and every combination of the six
optional criteria, the search result's members are exactly those
belonging to each criterion's individually-filtered result (AND
semantics), and with no criterion supplied the full list is returned
unchanged. -/
theorem C1_and_semantics (ps : Params) (l : List Opportunity) :
    (∀ o, o ∈ filterOpportunities ps l ↔
      (o ∈ filterOpportunities ps.onlyKeyword l ∧
       o ∈ filterOpportunities ps.onlyCity l ∧
       o ∈ filterOpportunities ps.onlySchedule l ∧
       o ∈ filterOpportunities ps.onlyAge l ∧
       o ∈ filterOpportunities ps.onlyGroup l ∧
       o ∈ filterOpportunities ps.onlySkill l)) ∧
    filterOpportunities Params.noCriteria l = l := by
  constructor
  · intro o
    simp only [filterOpportunities_eq_filter, List.mem_filter, matchesParams,
      Params.onlyKeyword, Params.onlyCity, Params.onlySchedule,
      Params.onlyAge, Params.onlyGroup, Params.onlySkill, critKeyword,
      critCity, critSchedule, critAge, critGroup, critSkill, Bool.and_true,
      Bool.true_and, Bool.and_eq_true]
    tauto
  · rfl

/-- C2: `age_minimum = A` keeps exactly the opportunities whose own
minimum-age requirement is at most `A` (inclusive upper bound); in
particular, with opportunities requiring ages 14 and 18, the query
`age_minimum = 16` returns only the 14+ opportunity. -/
theorem C2_age_upper_bound :
    (∀ (a : Int) (l : List Opportunity),
      filterOpportunities { age_minimum := some a } l =
        l.filter (fun o => o.requirements.age_minimum ≤ a)) ∧
    filterOpportunities { age_minimum := some 16 } [opp14, opp18] =
      [opp14] := by
  constructor
  · intro a l
    rfl
  · decide

/-- C3: for every criteria combination the returned list is a subsequence
of the stored list (order preserved, no duplication). -/
theorem C3_sublist (ps : Params) (l : List Opportunity) :
    (filterOpportunities ps l).Sublist l := by
  rw [filterOpportunities_eq_filter]
  exact List.filter_sublist l

/-- C4 counterexample: the claim's concatenation semantics disagrees with
the code on a keyword spanning the title/description boundary: the
lower-cased keyword `"bc"` is a substring of the lower-cased
concatenation of `oppSpan`'s title `"ab"` and description `"cd"`, yet the
search drops the opportunity. -/
theorem C4_counterexample :
    specKeywordConcatMatch "bc" oppSpan = true ∧
    filterOpportunities { keyword := some "bc" } [oppSpan] = [] := by
  constructor
  · decide
  · decide

/-- C4 (amended): the keyword criterion keeps an opportunity if and only
if the lower-cased keyword is a substring of the lower-cased title or of
the lower-cased description (tested separately, not against their
concatenation). -/
theorem C4_keyword_semantics (kw : String) (l : List Opportunity) :
    filterOpportunities { keyword := some kw } l =
      l.filter (fun o => jsIncludes (jsToLower o.title) (jsToLower kw) ||
        jsIncludes (jsToLower o.description) (jsToLower kw)) := by
  show filterKeyword (some kw) l = _
  by_cases h : kw = ""
  · subst h
    have : (fun o : Opportunity =>
        jsIncludes (jsToLower o.title) (jsToLower "") ||
          jsIncludes (jsToLower o.description) (jsToLower "")) = fun _ => true := by
      funext o
      simp [show jsToLower "" = "" from rfl, jsIncludes_empty_needle]
    simp [filterKeyword, this, List.filter_true]
  · simp only [filterKeyword, if_neg h]
    rfl

/-- C5: whenever a criteria combination filters the sample-store list to
the empty list, the response text is the fixed apology containing the
general volunteer contact phone and email, and the structured payload
carries an empty opportunity list. -/
theorem C5_zero_result (l : List Opportunity) (ps : Params)
    (h : filterOpportunities ps l = []) :
    (volunteerResponse
        { opportunities := l, main_contact := specVolunteerContact }
        ps).text =
      "No volunteer opportunities match your criteria. Try adjusting your filters or contact volunteer@cctwincities.org at (612) 204-8435 for more options." ∧
    jsIncludes
        (volunteerResponse
          { opportunities := l, main_contact := specVolunteerContact }
          ps).text
        specVolunteerContact.phone = true ∧
    jsIncludes
        (volunteerResponse
          { opportunities := l, main_contact := specVolunteerContact }
          ps).text
        specVolunteerContact.email = true ∧
    (volunteerResponse
        { opportunities := l, main_contact := specVolunteerContact }
        ps).structured =
      some { opportunities := [], contact := specVolunteerContact } := by
  simp only [volunteerResponse, h]
  refine ⟨?_, ?_, ?_, ?_⟩
  · decide
  · decide
  · decide
  · decide

/-- C5 witness: the spec's example `city = "Nonexistent City"` filters a
two-opportunity store to the empty list, and the zero-result conclusions
hold there. -/
theorem C5_zero_result_witness :
    filterOpportunities psNonexistent [opp14, opp18] = [] ∧
    ((volunteerResponse
        { opportunities := [opp14, opp18],
          main_contact := specVolunteerContact }
        psNonexistent).text =
      "No volunteer opportunities match your criteria. Try adjusting your filters or contact volunteer@cctwincities.org at (612) 204-8435 for more options." ∧
     jsIncludes
        (volunteerResponse
          { opportunities := [opp14, opp18],
            main_contact := specVolunteerContact }
          psNonexistent).text
        specVolunteerContact.phone = true ∧
     jsIncludes
        (volunteerResponse
          { opportunities := [opp14, opp18],
            main_contact := specVolunteerContact }
          psNonexistent).text
        specVolunteerContact.email = true ∧
     (volunteerResponse
        { opportunities := [opp14, opp18],
          main_contact := specVolunteerContact }
        psNonexistent).structured =
      some { opportunities := [], contact := specVolunteerContact }) :=
  ⟨by decide, C5_zero_result [opp14, opp18] psNonexistent (by decide)⟩

/-- C6: the donation lookup is total on the three valid type values: for
every data store and every type it renders by exactly the matching
variant branch, and the rendering chain's empty fall-through is never
taken (unrecognized wire values cannot construct a `DonationType`, the
schema-level constraint). -/
theorem C6_donation_total (store : Donations) (t : DonationType) :
    donationText store t = donationBranch store t := by
  cases t <;> rfl

/-- C7: each of the three operations independently maps any raised
exception to its fixed plain-text apology with its domain-appropriate
contact line; the output is the same for every fault, so no raw fault
description can appear. -/
theorem C7_error_isolation (e e' : String) :
    (volunteerBoundary (Except.error e) =
        { text := volunteerFallback, structured := none } ∧
      donationBoundary (Except.error e) = donationFallback ∧
      orgBoundary (Except.error e) = orgFallback) ∧
    (volunteerBoundary (Except.error e) = volunteerBoundary (Except.error e') ∧
      donationBoundary (Except.error e) = donationBoundary (Except.error e') ∧
      orgBoundary (Except.error e) = orgBoundary (Except.error e')) ∧
    (jsIncludes volunteerFallback "volunteer@cctwincities.org" = true ∧
      jsIncludes volunteerFallback "(612) 204-8435" = true) ∧
    (jsIncludes donationFallback "giving.info@cctwincities.org" = true ∧
      jsIncludes donationFallback "(612) 204-8374" = true) ∧
    (jsIncludes orgFallback "info@cctwincities.org" = true ∧
      jsIncludes orgFallback "(612) 204-8500" = true) := by
  exact ⟨⟨rfl, rfl, rfl⟩, ⟨rfl, rfl, rfl⟩, by decide⟩

/-- C8: the organization search on the literal query `"mission"` returns
exactly the mission block followed by the history block; no service,
contact/location, event, or statistics block is triggered because
`"mission"` contains none of those categories' keywords. -/
theorem C8_mission_query (org : Organization) :
    searchOrgInfo org "mission" = [missionBlock org, historyBlock org] := by
  have h1 : missionTrigger (jsToLower "mission") = true := by decide
  have h2 : serviceTrigger (jsToLower "mission") = false := by decide
  have h3 : contactTrigger (jsToLower "mission") = false := by decide
  have h4 : eventTrigger (jsToLower "mission") = false := by decide
  have h5 : statsTrigger (jsToLower "mission") = false := by decide
  simp [searchOrgInfo, h1, h2, h3, h4, h5]

/-- C9: supplying the empty string as the keyword, city, or skill
criterion yields exactly the same result as omitting that criterion,
for every remaining criteria combination. -/
theorem C9_empty_string_noop (ps : Params) (l : List Opportunity) :
    filterOpportunities { ps with keyword := some "" } l =
      filterOpportunities { ps with keyword := none } l ∧
    filterOpportunities { ps with city := some "" } l =
      filterOpportunities { ps with city := none } l ∧
    filterOpportunities { ps with skill := some "" } l =
      filterOpportunities { ps with skill := none } l := by
  refine ⟨?_, ?_, ?_⟩ <;>
    · rw [filterOpportunities_eq_filter, filterOpportunities_eq_filter]
      congr 1

/-- C10: the group-friendly criterion is an exact boolean-equality
filter: with flag `b` it keeps exactly the opportunities whose stored
flag equals `b`; in particular `group_friendly = false` is not a no-op
and excludes the group-friendly sample opportunity. -/
theorem C10_group_friendly_equality :
    (∀ (b : Bool) (l : List Opportunity),
      filterOpportunities { group_friendly := some b } l =
        l.filter (fun o => o.requirements.group_friendly == b)) ∧
    filterOpportunities { group_friendly := some false } [opp14, opp18] =
      [opp18] := by
  constructor
  · intro b l
    rfl
  · decide

end CCTC
